import Mathlib

/-!
Shallow embedding of `src/server.js`: a minimal account-management and
file-upload backend.  The three HTTP handlers (`POST /api/register`,
`POST /api/login`, `POST /api/upload`) are modelled as pure functions over
an explicit user store (the `users` table) and an explicit blob store.
External collaborators (the bcryptjs password hasher, the jwt signer, the
MySQL pool, the S3 client) are modelled by their contracts; faults of the
store are an explicit boolean parameter.
-/

/-- A JSON value as it may appear in a field of a request body.  `undef`
models an absent field; `num` models a non-string JSON value (the claims
use a number as the representative non-string). -/
inductive JSVal where
  | undef
  | str (s : String)
  | num (n : Int)
deriving DecidableEq, Repr

/-- JavaScript truthiness of a request-body value, as tested by
`if (!name || !email || !password)`: `undefined` and the empty string and
`0` are falsy, every other modelled value is truthy. -/
def JSVal.truthy : JSVal → Bool
  | .undef => false
  | .str s => !(s == "")
  | .num n => !(n == 0)

/-- `some s` when the value is a string; `none` models the `TypeError`
thrown by `.trim()` (or rejected by `bcrypt.hash`/`bcrypt.compare`) on a
non-string value. -/
def JSVal.asString : JSVal → Option String
  | .str s => some s
  | _ => none

/-- JavaScript `s || d` for strings: `d` when `s` is the empty string
(falsy), otherwise `s`.  Used by `name.trim() || "User"` and
`user.name?.trim() || "User"` and `process.env.JWT_SECRET || ...`. -/
def jsOr (s d : String) : String :=
  if s == "" then d else s

/-- JavaScript `String.prototype.trim()`: removes leading and trailing
whitespace characters. -/
def jsTrim (s : String) : String :=
  String.mk (((s.data.dropWhile Char.isWhitespace).reverse.dropWhile
    Char.isWhitespace).reverse)

/-- JavaScript `String.prototype.toLowerCase()`: lower-cases every
character. -/
def jsToLower (s : String) : String :=
  String.mk (s.data.map Char.toLower)

/-- `email.trim().toLowerCase()`, applied before both storage and lookup. -/
def normalizeEmail (e : String) : String :=
  jsToLower (jsTrim e)

/-- A row of the `users` table:
`users(id, name, email UNIQUE, password, created_at)`. -/
structure UserRow where
  id : Nat
  name : String
  email : String
  password : String
  createdAt : Nat
deriving DecidableEq, Repr

/-- Modelled from the spec: the external Password Hasher (bcryptjs), a
one-way adaptive hash with a cost factor, together with the contract the
spec states for it: the hash is never empty, never the plaintext, and the
hasher's comparison accepts exactly the original plaintext against a
produced hash. -/
structure Hasher where
  hash : Nat → String → String
  compare : String → String → Bool
  hash_ne_empty : ∀ c p, hash c p ≠ ""
  hash_ne_plain : ∀ c p, hash c p ≠ p
  compare_hash : ∀ c p, compare p (hash c p) = true
  compare_sound : ∀ c p q, compare q (hash c p) = true → q = p

/-- The configuration surface relevant to the handlers: the optional
environment variable `JWT_SECRET`. -/
structure Config where
  jwtSecret : Option String
deriving DecidableEq, Repr

/-- The hardcoded fallback signing secret of `jwt.sign(...)`. -/
def jwtFallbackSecret : String := "medilocker_secret_2025"

/-- `process.env.JWT_SECRET || "medilocker_secret_2025"`: an unset or
empty-string environment variable falls back to the hardcoded literal. -/
def effectiveSecret (cfg : Config) : String :=
  match cfg.jwtSecret with
  | none => jwtFallbackSecret
  | some s => jsOr s jwtFallbackSecret

/-- The output of `jwt.sign(payload, secret, {expiresIn})`: a token whose
payload carries exactly the claims `{id, name, email}`, signed with the
given secret, expiring after the given validity window. -/
structure SignedToken where
  id : Nat
  name : String
  email : String
  secret : String
  expiresIn : String
deriving DecidableEq, Repr

/-- `jwt.sign({id, name, email}, secret, {expiresIn})`. -/
def jwtSign (id : Nat) (name email secret expiresIn : String) : SignedToken :=
  ⟨id, name, email, secret, expiresIn⟩

/-- The JSON bodies the handlers produce.  `msg m` is `{message: m}`;
`successMsg m` is `{success: true, message: m}`; `token t` is
`{success: true, token: t}`; `failMsg m` is `{success: false, message: m}`;
`failErr m e` is `{success: false, message: m, error: e}`; `okUrl u` is
`{success: true, url: u}`. -/
inductive Body where
  | msg (message : String)
  | successMsg (message : String)
  | token (t : SignedToken)
  | failMsg (message : String)
  | failErr (message error : String)
  | okUrl (url : String)
deriving DecidableEq, Repr

/-- The `POST /api/register` handler (`server.js` lines 75-90), as a
function of the hasher, an insert-fault flag (`fault = true` models the
store rejecting the `INSERT` for a reason other than the duplicate-email
uniqueness conflict, which is modelled explicitly), the store-assigned
`created_at` timestamp and `AUTO_INCREMENT` id, the current table
contents, and the three body fields.  Returns the HTTP response
(status, body) and the table after the request.  Any exception inside the
`try` (a `TypeError` from `.trim()` on a non-string, a `bcrypt.hash`
rejection, a rejected `INSERT`) reaches the single `catch`, which answers
`400 {message: "Email already exists"}`. -/
def apiRegister (H : Hasher) (fault : Bool) (now nextId : Nat)
    (st : List UserRow) (name email password : JSVal) :
    (Nat × Body) × List UserRow :=
  if !(name.truthy && email.truthy && password.truthy) then
    ((400, .msg "All fields required"), st)
  else
    match name.asString, email.asString, password.asString with
    | some nm, some em, some pw =>
      if fault || st.any (fun r => r.email == normalizeEmail em) then
        ((400, .msg "Email already exists"), st)
      else
        ((200, .successMsg "Account created!"),
          st ++ [⟨nextId, jsOr (jsTrim nm) "User", normalizeEmail em,
                  H.hash 10 pw, now⟩])
    | _, _, _ => ((400, .msg "Email already exists"), st)

/-- The `POST /api/login` handler (`server.js` lines 92-124).  The whole
body sits in one `try`; any exception (a `TypeError` from `.trim()` on a
non-string email, a `bcrypt.compare` rejection on a non-string password)
reaches the `catch`, which answers `500`.  The `SELECT * FROM users WHERE
email = ?` returns the rows whose stored email equals the normalized input
(stored emails are written normalized by registration); `rows[0]` is the
head of that list. -/
def apiLogin (H : Hasher) (cfg : Config) (st : List UserRow)
    (email password : JSVal) : Nat × Body :=
  if !(email.truthy && password.truthy) then
    (400, .msg "Email and password required")
  else
    match email.asString with
    | none => (500, .msg "Server error — check terminal")
    | some em =>
      match st.filter (fun r => r.email == normalizeEmail em) with
      | [] => (401, .msg "Invalid email or password")
      | user :: _ =>
        match password.asString with
        | none => (500, .msg "Server error — check terminal")
        | some pw =>
          if !(H.compare pw user.password) then
            (401, .msg "Invalid email or password")
          else
            (200, .token (jwtSign user.id (jsOr (jsTrim user.name) "User")
              user.email (effectiveSecret cfg) "30d"))

/-- A file as delivered by the multer-s3 middleware: its original name and
the S3 object URL `req.file.location`. -/
structure UploadedFile where
  originalname : String
  location : String
deriving DecidableEq, Repr

/-- The `POST /api/upload` handler (`server.js` lines 127-137) composed
with the outcome of the `upload.single("file")` middleware: `parseErr`
is the middleware's error (if any), `file` is `req.file` — the file the
request carried under field name `"file"`, already stored by the
middleware on the success path — and `s3` is the blob store contents.
Returns the HTTP response and the blob store after the request. -/
def apiUpload (parseErr : Option String) (file : Option UploadedFile)
    (s3 : List UploadedFile) : (Nat × Body) × List UploadedFile :=
  match parseErr with
  | some e => ((500, .failErr "Upload failed" e), s3)
  | none =>
    match file with
    | none => ((400, .failMsg "No file uploaded"), s3)
    | some f => ((200, .okUrl f.location), s3 ++ [f])

/-- A concrete hasher satisfying the `Hasher` contract, used to evaluate
the handlers on concrete inputs: the "hash" tags the plaintext with a
cost-prefixed marker, which is visibly never empty and never the
plaintext, and comparison inverts the tagging. -/
def demoHasher : Hasher where
  hash := fun _ p => "$2a$10$" ++ p
  compare := fun q h => ("$2a$10$" ++ q) == h
  hash_ne_empty := by
    intro c p h
    have := congrArg String.length h
    simp [String.length_append] at this
    exact absurd this.1 (by decide)
  hash_ne_plain := by
    intro c p h
    have := congrArg String.length h
    simp [String.length_append] at this
    exact absurd this (by decide)
  compare_hash := by
    intro c p
    simp
  compare_sound := by
    intro c p q h
    have h2 := of_decide_eq_true h
    have := congrArg String.data h2
    simp [String.data_append] at this
    exact String.ext this

/-- C1 (counterexample): whitespace-only fields are NOT rejected as a
validation failure.  The string " " is empty after trimming, yet
registering with a whitespace-only password succeeds with HTTP 200 and
inserts a row, and logging in with a whitespace-only email answers 401
(invalid credentials), not a 400 validation failure. -/
theorem C1_counterexample :
    jsTrim " " = ""
    ∧ apiRegister demoHasher false 0 1 [] (.str "Alice") (.str "a@b.com") (.str " ")
        = ((200, .successMsg "Account created!"),
           [⟨1, "Alice", "a@b.com", "$2a$10$ ", 0⟩])
    ∧ apiLogin demoHasher ⟨none⟩ [] (.str " ") (.str "pw")
        = (401, .msg "Invalid email or password") := by
  refine ⟨by decide, by decide, by decide⟩

/-- C1 (amended): validation of `/api/register` and `/api/login` tests
JavaScript falsiness of the raw fields, not emptiness after trimming: the
handler answers the 400 validation response exactly when some required
field is absent, the empty string, or another falsy value — a
whitespace-only string passes validation. -/
theorem C1_validation (H : Hasher) (fault : Bool) (now nextId : Nat)
    (st : List UserRow) (cfg : Config) (st2 : List UserRow)
    (name email password email2 password2 : JSVal) :
    (apiRegister H fault now nextId st name email password
        = ((400, Body.msg "All fields required"), st)
      ↔ (name.truthy && email.truthy && password.truthy) = false)
    ∧ (apiLogin H cfg st2 email2 password2
        = (400, Body.msg "Email and password required")
      ↔ (email2.truthy && password2.truthy) = false) := by
  constructor
  · unfold apiRegister
    split
    next h =>
      simp only [Bool.not_eq_eq_eq_not, Bool.not_true] at h
      simp [h]
    next h =>
      simp only [Bool.not_eq_eq_eq_not, Bool.not_true, Bool.not_eq_false] at h
      simp only [h]
      split
      · split <;> simp
      · simp
  · unfold apiLogin
    split
    next h =>
      simp only [Bool.not_eq_eq_eq_not, Bool.not_true] at h
      simp [h]
    next h =>
      simp only [Bool.not_eq_eq_eq_not, Bool.not_true, Bool.not_eq_false] at h
      simp only [h]
      split
      · simp
      · split
        · simp
        · split
          · simp
          · split <;> simp

/-- C2: enumeration resistance of `/api/login` — a login with the correct
normalized email of a stored user but a password the hasher rejects, and a
login with an email matching no stored row, produce the literal response
`401 {message: "Invalid email or password"}` in both cases, hence identical
status code and message. -/
theorem C2_same_error (H : Hasher) (cfg : Config) (st : List UserRow)
    (e p e2 p2 : String) (u : UserRow) (rest : List UserRow)
    (he : e ≠ "") (hp : p ≠ "")
    (hfind : st.filter (fun r => r.email == normalizeEmail e) = u :: rest)
    (hwrong : H.compare p u.password = false)
    (he2 : e2 ≠ "") (hp2 : p2 ≠ "")
    (hnone : st.filter (fun r => r.email == normalizeEmail e2) = []) :
    apiLogin H cfg st (.str e) (.str p)
      = (401, Body.msg "Invalid email or password")
    ∧ apiLogin H cfg st (.str e2) (.str p2)
      = (401, Body.msg "Invalid email or password")
    ∧ apiLogin H cfg st (.str e) (.str p)
      = apiLogin H cfg st (.str e2) (.str p2) := by
  have he' : (e == "") = false := beq_eq_false_iff_ne.mpr he
  have hp' : (p == "") = false := beq_eq_false_iff_ne.mpr hp
  have he2' : (e2 == "") = false := beq_eq_false_iff_ne.mpr he2
  have hp2' : (p2 == "") = false := beq_eq_false_iff_ne.mpr hp2
  have hA : apiLogin H cfg st (.str e) (.str p)
      = (401, Body.msg "Invalid email or password") := by
    unfold apiLogin
    simp [JSVal.truthy, JSVal.asString, he', hp', hfind, hwrong]
  have hB : apiLogin H cfg st (.str e2) (.str p2)
      = (401, Body.msg "Invalid email or password") := by
    unfold apiLogin
    simp [JSVal.truthy, JSVal.asString, he2', hp2', hnone]
  exact ⟨hA, hB, hA.trans hB.symm⟩

/-- Witness for C2 at a concrete store, wrong password and unknown email. -/
theorem C2_witness :
    apiLogin demoHasher ⟨none⟩ [⟨1, "Alice", "a@b.com", "$2a$10$right", 0⟩]
      (.str "a@b.com") (.str "wrong") = (401, Body.msg "Invalid email or password")
    ∧ apiLogin demoHasher ⟨none⟩ [⟨1, "Alice", "a@b.com", "$2a$10$right", 0⟩]
      (.str "ghost@b.com") (.str "wrong") = (401, Body.msg "Invalid email or password") := by
  have h := C2_same_error demoHasher ⟨none⟩ [⟨1, "Alice", "a@b.com", "$2a$10$right", 0⟩]
    "a@b.com" "wrong" "ghost@b.com" "wrong" ⟨1, "Alice", "a@b.com", "$2a$10$right", 0⟩ []
    (by decide) (by decide) (by decide) (by decide) (by decide) (by decide) (by decide)
  exact ⟨h.1, h.2.1⟩

/-- C3: on a successful login the issued token carries exactly the claims
`{id, name, email}` of the stored row, with the name trimmed and defaulted
to "User" when the trim is empty, is signed with the effective secret and
expires in 30 days; the effective secret is the configured `JWT_SECRET`
when set and non-empty, and the hardcoded fallback
"medilocker_secret_2025" otherwise. -/
theorem C3_token_issuance (H : Hasher) (cfg : Config) (st : List UserRow)
    (e p : String) (u : UserRow) (rest : List UserRow)
    (he : e ≠ "") (hp : p ≠ "")
    (hfind : st.filter (fun r => r.email == normalizeEmail e) = u :: rest)
    (hmatch : H.compare p u.password = true) :
    apiLogin H cfg st (.str e) (.str p)
      = (200, Body.token
          ⟨u.id, jsOr (jsTrim u.name) "User", u.email, effectiveSecret cfg, "30d"⟩)
    ∧ effectiveSecret ⟨none⟩ = "medilocker_secret_2025"
    ∧ effectiveSecret ⟨some ""⟩ = "medilocker_secret_2025"
    ∧ (∀ s, s ≠ "" → effectiveSecret ⟨some s⟩ = s) := by
  have he' : (e == "") = false := beq_eq_false_iff_ne.mpr he
  have hp' : (p == "") = false := beq_eq_false_iff_ne.mpr hp
  refine ⟨?_, by decide, by decide, ?_⟩
  · unfold apiLogin
    simp [JSVal.truthy, JSVal.asString, he', hp', hfind, hmatch, jwtSign]
  · intro s hs
    simp [effectiveSecret, jsOr, beq_eq_false_iff_ne.mpr hs]

/-- Witness for C3 at a concrete store and configured secret; the stored
name " Alice " is embedded trimmed as "Alice". -/
theorem C3_witness :
    apiLogin demoHasher ⟨some "topsecret"⟩ [⟨1, " Alice ", "a@b.com", "$2a$10$right", 0⟩]
      (.str "a@b.com") (.str "right")
      = (200, Body.token ⟨1, "Alice", "a@b.com", "topsecret", "30d"⟩) := by
  have h := C3_token_issuance demoHasher ⟨some "topsecret"⟩
    [⟨1, " Alice ", "a@b.com", "$2a$10$right", 0⟩] "a@b.com" "right"
    ⟨1, " Alice ", "a@b.com", "$2a$10$right", 0⟩ []
    (by decide) (by decide) (by decide) (by decide)
  have h2 := h.1
  simp only [jsTrim, jsOr, effectiveSecret] at h2
  exact h2.trans (by decide)

/-- C4: email normalization round-trip — registering with one
case/whitespace variant of an email stores the normalized form, and a
subsequent login with any variant normalizing to the same string and the
correct password succeeds (both requests answer HTTP 200). -/
theorem C4_email_roundtrip (H : Hasher) (cfg : Config) (now nextId : Nat)
    (st : List UserRow) (name e1 e2 pw : String)
    (hn : name ≠ "") (he1 : e1 ≠ "") (he2 : e2 ≠ "") (hpw : pw ≠ "")
    (hnorm : normalizeEmail e1 = normalizeEmail e2)
    (hfresh : st.any (fun r => r.email == normalizeEmail e1) = false) :
    (apiRegister H false now nextId st (.str name) (.str e1) (.str pw)).1.1 = 200
    ∧ (apiLogin H cfg
        (apiRegister H false now nextId st (.str name) (.str e1) (.str pw)).2
        (.str e2) (.str pw)).1 = 200 := by
  have hn' : (name == "") = false := beq_eq_false_iff_ne.mpr hn
  have he1' : (e1 == "") = false := beq_eq_false_iff_ne.mpr he1
  have he2' : (e2 == "") = false := beq_eq_false_iff_ne.mpr he2
  have hpw' : (pw == "") = false := beq_eq_false_iff_ne.mpr hpw
  have hreg : apiRegister H false now nextId st (.str name) (.str e1) (.str pw)
      = ((200, Body.successMsg "Account created!"),
         st ++ [⟨nextId, jsOr (jsTrim name) "User", normalizeEmail e1,
                 H.hash 10 pw, now⟩]) := by
    unfold apiRegister
    simp [JSVal.truthy, JSVal.asString, hn', he1', hpw', hfresh]
  have hfilter : (st ++ [(⟨nextId, jsOr (jsTrim name) "User", normalizeEmail e1,
      H.hash 10 pw, now⟩ : UserRow)]).filter
        (fun r => r.email == normalizeEmail e2)
      = [⟨nextId, jsOr (jsTrim name) "User", normalizeEmail e1, H.hash 10 pw, now⟩] := by
    rw [List.filter_append]
    have h1 : st.filter (fun r => r.email == normalizeEmail e2) = [] := by
      rw [List.filter_eq_nil_iff]
      intro a ha
      rw [← hnorm]
      have := (List.any_eq_false).mp hfresh a ha
      simpa using this
    rw [h1, ← hnorm]
    simp
  refine ⟨by rw [hreg], ?_⟩
  rw [hreg]
  unfold apiLogin
  simp [JSVal.truthy, JSVal.asString, he2', hpw', hfilter, H.compare_hash]

/-- Witness for C4: register "A@B.com " then log in with "a@b.com". -/
theorem C4_witness :
    (apiRegister demoHasher false 7 1 [] (.str "Bob") (.str "A@B.com ") (.str "pw1")).1.1 = 200
    ∧ (apiLogin demoHasher ⟨none⟩
        (apiRegister demoHasher false 7 1 [] (.str "Bob") (.str "A@B.com ") (.str "pw1")).2
        (.str "a@b.com") (.str "pw1")).1 = 200 :=
  C4_email_roundtrip demoHasher ⟨none⟩ 7 1 [] "Bob" "A@B.com " "a@b.com" "pw1"
    (by decide) (by decide) (by decide) (by decide) (by decide) (by decide)

/-- C5: a registration whose name trims to the empty string and which
succeeds (HTTP 200) creates a row whose stored name is the literal
"User". -/
theorem C5_default_name (H : Hasher) (fault : Bool) (now nextId : Nat)
    (st : List UserRow) (name email password : String)
    (hname : jsTrim name = "")
    (h200 : (apiRegister H fault now nextId st
        (.str name) (.str email) (.str password)).1.1 = 200) :
    (apiRegister H fault now nextId st (.str name) (.str email) (.str password)).2
      = st ++ [⟨nextId, "User", normalizeEmail email, H.hash 10 password, now⟩] := by
  unfold apiRegister at h200 ⊢
  split at h200
  · simp at h200
  next hcond =>
    rw [if_neg hcond]
    simp only [JSVal.asString] at h200 ⊢
    split at h200
    · simp at h200
    next hins =>
      rw [if_neg hins]
      simp [jsOr, hname]

/-- Witness for C5: registering with a whitespace-only name stores
"User". -/
theorem C5_witness :
    jsTrim "  " = ""
    ∧ (apiRegister demoHasher false 3 1 [] (.str "  ") (.str "Test@Example.com")
        (.str "secret1")).2
      = [] ++ [⟨1, "User", "test@example.com", "$2a$10$secret1", 3⟩] := by
  have h := C5_default_name demoHasher false 3 1 [] "  " "Test@Example.com" "secret1"
    (by decide) (by decide)
  exact ⟨by decide, h.trans (by decide)⟩

/-- C6: for a registration that passes validation (all three fields
truthy), any failure of the insert step — the duplicate-email uniqueness
conflict or any other storage fault — produces the same client-error
response `400 {message: "Email already exists"}`, with the store
unchanged. -/
theorem C6_collapsed_insert_failures (H : Hasher) (fault : Bool) (now nextId : Nat)
    (st : List UserRow) (name password : JSVal) (email : String)
    (hn : name.truthy = true) (he : email ≠ "") (hp : password.truthy = true)
    (hfail : fault = true
      ∨ st.any (fun r => r.email == normalizeEmail email) = true) :
    apiRegister H fault now nextId st name (.str email) password
      = ((400, Body.msg "Email already exists"), st) := by
  have he' : (email == "") = false := beq_eq_false_iff_ne.mpr he
  have hor : (fault || st.any (fun r => r.email == normalizeEmail email)) = true := by
    rcases hfail with h | h <;> simp [h]
  unfold apiRegister
  cases name <;> cases password <;>
    simp_all [JSVal.truthy, JSVal.asString]

/-- Witness for C6: a duplicate email (differing only in case/whitespace)
and an unrelated storage fault produce the same response. -/
theorem C6_witness :
    apiRegister demoHasher false 0 2 [⟨1, "Alice", "a@b.com", "$2a$10$x", 0⟩]
      (.str "Bob") (.str " A@b.com") (.str "pw")
      = ((400, Body.msg "Email already exists"),
         [⟨1, "Alice", "a@b.com", "$2a$10$x", 0⟩])
    ∧ apiRegister demoHasher true 0 1 [] (.str "Bob") (.str "new@b.com") (.str "pw")
      = ((400, Body.msg "Email already exists"), []) :=
  ⟨C6_collapsed_insert_failures demoHasher false 0 2
      [⟨1, "Alice", "a@b.com", "$2a$10$x", 0⟩] (.str "Bob") (.str "pw") " A@b.com"
      (by decide) (by decide) (by decide) (Or.inr (by decide)),
   C6_collapsed_insert_failures demoHasher true 0 1 [] (.str "Bob") (.str "pw")
      "new@b.com" (by decide) (by decide) (by decide) (Or.inl rfl)⟩

/-- C7: registration preserves the stored-password invariant — if every
row's password field is the hasher's output on some plaintext, the same
holds after any registration request, and every stored password is
non-empty and differs from the plaintext it hashes; no plaintext is
persisted. -/
theorem C7_password_invariant (H : Hasher) (fault : Bool) (now nextId : Nat)
    (st : List UserRow) (name email password : JSVal)
    (hinv : ∀ r ∈ st, ∃ q, r.password = H.hash 10 q) :
    ∀ r ∈ (apiRegister H fault now nextId st name email password).2,
      ∃ q, r.password = H.hash 10 q ∧ r.password ≠ "" ∧ r.password ≠ q := by
  have strong : ∀ r ∈ st,
      ∃ q, r.password = H.hash 10 q ∧ r.password ≠ "" ∧ r.password ≠ q := by
    intro r hr
    obtain ⟨q, hq⟩ := hinv r hr
    exact ⟨q, hq, hq ▸ H.hash_ne_empty 10 q, hq ▸ H.hash_ne_plain 10 q⟩
  intro r hr
  unfold apiRegister at hr
  split at hr
  · exact strong r hr
  · split at hr
    · split at hr
      · exact strong r hr
      · simp only [List.mem_append, List.mem_singleton] at hr
        rcases hr with hr | hr
        · exact strong r hr
        · subst hr
          exact ⟨_, rfl, H.hash_ne_empty 10 _, H.hash_ne_plain 10 _⟩
    · exact strong r hr

/-- Witness for C7 on an initially empty store, specialized to the one row
the registration inserts. -/
theorem C7_witness :
    ∃ q, ("$2a$10$pw" : String) = demoHasher.hash 10 q
      ∧ ("$2a$10$pw" : String) ≠ "" ∧ ("$2a$10$pw" : String) ≠ q :=
  C7_password_invariant demoHasher false 0 1 [] (.str "Alice") (.str "a@b.com")
    (.str "pw") (by simp) ⟨1, "Alice", "a@b.com", "$2a$10$pw", 0⟩ (by decide)

/-- C8: registration is atomic — on success (HTTP 200) exactly one row is
appended to the store, and on any failure (validation, hashing, insert)
the store is unchanged. -/
theorem C8_atomic (H : Hasher) (fault : Bool) (now nextId : Nat)
    (st : List UserRow) (name email password : JSVal) :
    ((apiRegister H fault now nextId st name email password).1.1 = 200
      → ∃ r, (apiRegister H fault now nextId st name email password).2 = st ++ [r])
    ∧ ((apiRegister H fault now nextId st name email password).1.1 ≠ 200
      → (apiRegister H fault now nextId st name email password).2 = st) := by
  unfold apiRegister
  split
  · simp
  · split
    · split
      · simp
      · exact ⟨fun _ => ⟨_, rfl⟩, fun h => absurd rfl h⟩
    · simp

/-- Witness for C8: a successful run appends one row; a faulted run leaves
the store empty. -/
theorem C8_witness :
    (∃ r, (apiRegister demoHasher false 0 1 []
        (.str "A") (.str "a@b.com") (.str "p")).2 = [] ++ [r])
    ∧ (apiRegister demoHasher true 0 1 []
        (.str "A") (.str "a@b.com") (.str "p")).2 = [] :=
  ⟨(C8_atomic demoHasher false 0 1 [] (.str "A") (.str "a@b.com") (.str "p")).1
      (by decide),
   (C8_atomic demoHasher true 0 1 [] (.str "A") (.str "a@b.com") (.str "p")).2
      (by decide)⟩

/-- C9: an upload request with no file under field name "file" (and no
middleware error) answers `400 {success: false, message: "No file
uploaded"}` and leaves the blob store unchanged. -/
theorem C9_no_file (s3 : List UploadedFile) :
    apiUpload none none s3 = ((400, Body.failMsg "No file uploaded"), s3) := rfl

/-- C10 (counterexample): a login whose password is a truthy non-string
value but whose email is a string matching no stored user answers 401, not
the claimed 500 — the handler returns at the empty-rows check before ever
touching the password. -/
theorem C10_counterexample :
    (JSVal.num 5).truthy = true
    ∧ (JSVal.num 5).asString = none
    ∧ apiLogin demoHasher ⟨none⟩ [] (.str "a@b.com") (.num 5)
      = (401, Body.msg "Invalid email or password") := by
  refine ⟨by decide, by decide, by decide⟩

/-- C10 (amended): truthy non-string request fields never crash the
handlers.  For registration, any truthy non-string field is caught by the
insert-failure handler and answers `400 {message: "Email already exists"}`
with the store unchanged.  For login, a truthy non-string email answers
500; a truthy non-string password answers 500 only when the email is a
string matching a stored user — when the email matches no stored user the
response is 401, because the handler returns before touching the
password. -/
theorem C10_nonstring_fields (H : Hasher) (cfg : Config) (fault : Bool)
    (now nextId : Nat) (st : List UserRow) :
    (∀ name email password : JSVal,
       name.truthy = true → email.truthy = true → password.truthy = true →
       (name.asString = none ∨ email.asString = none ∨ password.asString = none) →
       apiRegister H fault now nextId st name email password
         = ((400, Body.msg "Email already exists"), st))
    ∧ (∀ email password : JSVal,
       email.truthy = true → password.truthy = true → email.asString = none →
       apiLogin H cfg st email password
         = (500, Body.msg "Server error — check terminal"))
    ∧ (∀ (e : String) (password : JSVal) (u : UserRow) (rest : List UserRow),
       e ≠ "" → password.truthy = true → password.asString = none →
       st.filter (fun r => r.email == normalizeEmail e) = u :: rest →
       apiLogin H cfg st (.str e) password
         = (500, Body.msg "Server error — check terminal"))
    ∧ (∀ (e : String) (password : JSVal),
       e ≠ "" → password.truthy = true →
       st.filter (fun r => r.email == normalizeEmail e) = [] →
       apiLogin H cfg st (.str e) password
         = (401, Body.msg "Invalid email or password")) := by
  refine ⟨?_, ?_, ?_, ?_⟩
  · intro name email password hn he hp hns
    unfold apiRegister
    cases name <;> cases email <;> cases password <;>
      simp_all [JSVal.truthy, JSVal.asString]
  · intro email password he hp hns
    unfold apiLogin
    cases email <;> simp_all [JSVal.truthy, JSVal.asString]
  · intro e password u rest he hp hns hfind
    have he' : (e == "") = false := beq_eq_false_iff_ne.mpr he
    have hcond : (!((JSVal.str e).truthy && password.truthy)) = false := by
      rw [show (JSVal.str e).truthy = !(e == "") from rfl, he', hp]
      rfl
    unfold apiLogin
    rw [hcond]
    simp only [show (JSVal.str e).asString = some e from rfl]
    rw [hfind, hns]
    simp
  · intro e password he hp hfilter
    have he' : (e == "") = false := beq_eq_false_iff_ne.mpr he
    have hcond : (!((JSVal.str e).truthy && password.truthy)) = false := by
      rw [show (JSVal.str e).truthy = !(e == "") from rfl, he', hp]
      rfl
    unfold apiLogin
    rw [hcond]
    simp only [show (JSVal.str e).asString = some e from rfl]
    rw [hfilter]
    simp

/-- Witness for C10 at concrete non-string field values. -/
theorem C10_witness :
    apiRegister demoHasher false 0 1 [] (.num 7) (.str "a@b.com") (.str "pw")
      = ((400, Body.msg "Email already exists"), [])
    ∧ apiLogin demoHasher ⟨none⟩ [] (.num 7) (.str "pw")
      = (500, Body.msg "Server error — check terminal")
    ∧ apiLogin demoHasher ⟨none⟩ [⟨1, "Alice", "a@b.com", "$2a$10$x", 0⟩]
        (.str "a@b.com") (.num 7)
      = (500, Body.msg "Server error — check terminal")
    ∧ apiLogin demoHasher ⟨none⟩ [⟨1, "Alice", "a@b.com", "$2a$10$x", 0⟩]
        (.str "ghost@b.com") (.num 7)
      = (401, Body.msg "Invalid email or password") :=
  ⟨(C10_nonstring_fields demoHasher ⟨none⟩ false 0 1 []).1
      (.num 7) (.str "a@b.com") (.str "pw")
      (by decide) (by decide) (by decide) (Or.inl rfl),
   (C10_nonstring_fields demoHasher ⟨none⟩ false 0 1 []).2.1
      (.num 7) (.str "pw") (by decide) (by decide) rfl,
   (C10_nonstring_fields demoHasher ⟨none⟩ false 0 1
      [⟨1, "Alice", "a@b.com", "$2a$10$x", 0⟩]).2.2.1
      "a@b.com" (.num 7) ⟨1, "Alice", "a@b.com", "$2a$10$x", 0⟩ []
      (by decide) (by decide) rfl (by decide),
   (C10_nonstring_fields demoHasher ⟨none⟩ false 0 1
      [⟨1, "Alice", "a@b.com", "$2a$10$x", 0⟩]).2.2.2
      "ghost@b.com" (.num 7) (by decide) (by decide) (by decide)⟩
